import Mathlib

/-!
Verification development for the capture-to-export pipeline of the
irminsul player-inventory exporter.  The definitions below are a shallow
embedding of the Rust source (`src/good.rs`, `src/player_data.rs`):

* Rust `HashMap`s that are only read through `.get` are modelled as
  association lists (`List (κ × ν)`) or as lookup functions `κ → Option ν`;
  `HashMap` insertion is last-writer-wins.
* Machine integers (`u32`, `u64`, `i64`) are modelled as `Nat` / `Int`;
  the one place where wraparound matters (the unchecked `level - 1` in the
  artifact exporter) is modelled with explicit `u32` wrap semantics.
* `f64` substat magnitudes are modelled as `Rat` (the code only ever adds
  them).
* The external game database (`anime_game_data::AnimeGameData`) and the
  decoded protobuf records (`auto_artifactarium`) are collaborators; they
  are modelled as records of abstract lookup functions and plain data.
-/

/-! ## Canonical key conversion (`src/good.rs`) -/

/-- Rust `char::is_ascii_alphanumeric`: `'0'..='9' | 'A'..='Z' | 'a'..='z'`. -/
def isAsciiAlphanumeric (c : Char) : Bool :=
  decide ((48 ≤ c.toNat ∧ c.toNat ≤ 57) ∨ (65 ≤ c.toNat ∧ c.toNat ≤ 90) ∨
    (97 ≤ c.toNat ∧ c.toNat ≤ 122))

/-- Uppercasing as performed by `c.to_uppercase()` on the ASCII
alphanumeric characters the code feeds it (identity except `'a'..='z'`). -/
def asciiUpper (c : Char) : Char :=
  if 97 ≤ c.toNat ∧ c.toNat ≤ 122 then Char.ofNat (c.toNat - 32) else c

/-- The loop of `to_good_key`, with the `capitalize_next` flag made
explicit.  Mirrors `src/good.rs` lines 63-81. -/
def good_key_aux : Bool → List Char → List Char
  | _, [] => []
  | capitalizeNext, c :: rest =>
    if isAsciiAlphanumeric c then
      (if capitalizeNext then asciiUpper c else c) :: good_key_aux false rest
    else if c = ' ' then
      good_key_aux true rest
    else
      good_key_aux capitalizeNext rest

/-- `good::to_good_key` from `src/good.rs`: `capitalize_next` starts `true`. -/
def to_good_key (value : String) : String :=
  String.mk (good_key_aux true value.data)

/-! Spec-side formulation of the same conversion, written after the spec's
words: keep only ASCII letters and digits, and uppercase exactly those kept
characters that are the first kept character overall or the first kept
character following a space. -/

/-- `true` iff a kept character placed after the prefix `pre` would be the
first kept character overall, or the first kept character following a
space: no character since the last space of `pre` (or since the start, if
`pre` has no space) is kept. -/
def spec_capitalize_here (pre : List Char) : Bool :=
  (pre.reverse.takeWhile (fun c => c ≠ ' ')).all (fun c => ! isAsciiAlphanumeric c)

/-- Spec-side scan: each character is processed with its full prefix in
hand; kept iff ASCII alphanumeric, uppercased iff `spec_capitalize_here`
holds of the prefix. -/
def to_good_key_spec_aux : List Char → List Char → List Char
  | _, [] => []
  | pre, c :: rest =>
    (if isAsciiAlphanumeric c then
      [if spec_capitalize_here pre then asciiUpper c else c]
    else []) ++ to_good_key_spec_aux (pre ++ [c]) rest

/-- Spec-side formulation of `to_good_key` (quantified over in C4). -/
def to_good_key_spec (value : String) : String :=
  String.mk (to_good_key_spec_aux [] value.data)

theorem spec_capitalize_here_nil : spec_capitalize_here [] = true := rfl

theorem spec_capitalize_here_append (pre : List Char) (c : Char) :
    spec_capitalize_here (pre ++ [c]) =
      if c = ' ' then true else (! isAsciiAlphanumeric c && spec_capitalize_here pre) := by
  unfold spec_capitalize_here
  rw [List.reverse_append]
  simp only [List.reverse_cons, List.reverse_nil, List.nil_append, List.singleton_append,
    List.takeWhile_cons]
  by_cases h : c = ' '
  · simp [h]
  · simp [h]

theorem isAsciiAlphanumeric_ne_space {c : Char} (h : isAsciiAlphanumeric c = true) :
    c ≠ ' ' := by
  intro he
  subst he
  simp [isAsciiAlphanumeric] at h

theorem good_key_aux_eq_spec_aux (rest : List Char) :
    ∀ pre : List Char,
      good_key_aux (spec_capitalize_here pre) rest = to_good_key_spec_aux pre rest := by
  induction rest with
  | nil => intro pre; rfl
  | cons c rest ih =>
    intro pre
    unfold good_key_aux to_good_key_spec_aux
    by_cases halnum : isAsciiAlphanumeric c
    · have hcap : spec_capitalize_here (pre ++ [c]) = false := by
        rw [spec_capitalize_here_append]
        simp [isAsciiAlphanumeric_ne_space halnum, halnum]
      have := ih (pre ++ [c])
      rw [hcap] at this
      simp [halnum, this]
    · by_cases hsp : c = ' '
      · subst hsp
        have hcap : spec_capitalize_here (pre ++ [' ']) = true := by
          rw [spec_capitalize_here_append]; simp
        have := ih (pre ++ [' '])
        rw [hcap] at this
        have h1 : isAsciiAlphanumeric ' ' = false := by decide
        simp [h1, this]
      · have hcap : spec_capitalize_here (pre ++ [c]) = spec_capitalize_here pre := by
          rw [spec_capitalize_here_append]
          simp [hsp, halnum]
        have := ih (pre ++ [c])
        rw [hcap] at this
        simp [halnum, hsp, this]

/-- Claim C4: for every input string, `to_good_key` keeps exactly the ASCII
alphanumeric characters, in order, and uppercases exactly those kept
characters that are the first kept character overall or the first kept
character following a space; on `"Bow of the Stringless"` it yields
`"BowOfTheStringless"`. -/
theorem to_good_key_matches_spec :
    (∀ value : String, to_good_key value = to_good_key_spec value) ∧
      to_good_key ("Bow of the Stringless") = ("BowOfTheStringless") := by
  constructor
  · intro value
    unfold to_good_key to_good_key_spec
    rw [← good_key_aux_eq_spec_aux value.data [], spec_capitalize_here_nil]
  · rfl

/-- The second example string of claim C3, `"A's Blade!"`, built without a
literal apostrophe. -/
def c3_example_string : String :=
  String.mk ['A', Char.ofNat 39, 's', ' ', 'B', 'l', 'a', 'd', 'e', '!']

/-- Claim C3, counterexample: on `"A's Blade!"` the code returns
`"AsBlade"`, not `"ASBlade"` — the apostrophe is dropped without setting
`capitalize_next`, so the `s` stays lowercase. -/
theorem to_good_key_apostrophe_counterexample :
    to_good_key c3_example_string = ("AsBlade") ∧ ("AsBlade") ≠ ("ASBlade") := by
  constructor
  · rfl
  · decide

/-- Claim C3 (amended): `to_good_key "bow of the stringless"` is
`"BowOfTheStringless"` and `to_good_key "A's Blade!"` is `"AsBlade"`. -/
theorem to_good_key_examples :
    to_good_key ("bow of the stringless") = ("BowOfTheStringless") ∧
      to_good_key c3_example_string = ("AsBlade") := by
  exact ⟨rfl, rfl⟩

/-! ## Decoded protobuf records (`auto_artifactarium` collaborator) -/

namespace protos

/-- `AvatarInfo`: one character record as decoded from the wire. -/
structure AvatarInfo where
  avatar_type : Nat
  avatar_id : Nat
  prop_map : List (Nat × Int)
  skill_level_map : List (Nat × Nat)
  talent_id_list : List Nat
  equip_guid_list : List Nat
deriving DecidableEq

/-- Reliquary payload of an equip item: `level` is the stored 1-based-plus-one
`u32` level. -/
structure Reliquary where
  level : Nat
  main_prop_id : Nat
  append_prop_id_list : List Nat
deriving DecidableEq

/-- Weapon payload of an equip item; `affix_map` models the Rust
`HashMap<u32, u32>` as an association list in iteration order. -/
structure Weapon where
  level : Nat
  promote_level : Nat
  affix_map : List (Nat × Nat)
deriving DecidableEq

/-- Material payload. -/
structure Material where
  count : Nat
deriving DecidableEq

/-- The `oneof` payload of an equip item. -/
inductive EquipDetail where
  | reliquary (r : Reliquary)
  | weapon (w : Weapon)
deriving DecidableEq

/-- Equip item payload. -/
structure Equip where
  is_locked : Bool
  detail : EquipDetail
deriving DecidableEq

/-- The `oneof` detail of an `Item`; `unset` models an absent `oneof`
(`has_equip()` and `has_material()` both false). -/
inductive ItemDetail where
  | equip (e : Equip)
  | material (m : Material)
  | unset
deriving DecidableEq

/-- One inventory item. -/
structure Item where
  item_id : Nat
  guid : Nat
  detail : ItemDetail
deriving DecidableEq

end protos

/-! ## Game database collaborator (`anime_game_data`) -/

/-- Skill classification returned by the game database. -/
inductive SkillType where
  | auto
  | skill
  | burst
deriving DecidableEq

/-- An affix: a property (modelled by its numeric discriminant) and an `f64`
magnitude, modelled as `Rat`. -/
structure Affix where
  property : Nat
  value : Rat
deriving DecidableEq

/-- Artifact metadata; `slot_good_name` models `slot.good_name()`. -/
structure ArtifactData where
  rarity : Nat
  set : String
  slot_good_name : String
deriving DecidableEq

/-- Weapon metadata. -/
structure WeaponData where
  name : String
  rarity : Nat
deriving DecidableEq

/-- The game database: a record of fallible lookups (`Result` in Rust,
consumed through `.ok()`, hence `Option` here).  `property_good_name`
models `Property::good_name`. -/
structure AnimeGameData where
  get_character : Nat → Option String
  get_skill_type : Nat → Option SkillType
  get_artifact : Nat → Option ArtifactData
  get_affix : Nat → Option Affix
  get_property : Nat → Option Nat
  get_weapon : Nat → Option WeaponData
  get_material : Nat → Option String
  property_good_name : Nat → String

/-- Achievement record (opaque to every claim). -/
structure Achievement where
  id : Nat
deriving DecidableEq

/-! ## GOOD export records (`src/good.rs`) -/

namespace good

/-- One exported substat. -/
structure Substat where
  key : String
  value : Rat
deriving DecidableEq

/-- One exported artifact. -/
structure Artifact where
  set_key : String
  slot_key : String
  level : Nat
  rarity : Nat
  main_stat_key : String
  location : String
  lock : Bool
  substats : List Substat
deriving DecidableEq

/-- One exported weapon. -/
structure Weapon where
  key : String
  level : Nat
  ascension : Nat
  refinement : Nat
  location : String
  lock : Bool
deriving DecidableEq

/-- Exported talent levels. -/
structure TalentLevel where
  auto : Nat
  skill : Nat
  burst : Nat
deriving DecidableEq

/-- One exported character. -/
structure Character where
  key : String
  level : Nat
  constellation : Nat
  ascension : Nat
  talent : TalentLevel
deriving DecidableEq

/-- The full GOOD document; `materials` models the Rust
`HashMap<String, u32>` as a lookup function. -/
structure Good where
  format : String
  version : Nat
  source : String
  characters : List Character
  artifacts : List Artifact
  weapons : List Weapon
  materials : String → Option Nat

end good

/-! ## Player data aggregator (`src/player_data.rs`) -/

/-- `HashMap::insert` on a map modelled as a lookup function. -/
def assocInsert {α β : Type} [DecidableEq α] (m : α → Option β) (k : α) (v : β) :
    α → Option β :=
  fun x => if x = k then some v else m x

/-- `HashMap::get` on a map modelled as an association list. -/
def assocFind {β : Type} (m : List (Nat × β)) (k : Nat) : Option β :=
  (m.find? (fun e => e.1 == k)).map Prod.snd

/-- Export settings (`ExportSettings` in `src/player_data.rs`). -/
structure ExportSettings where
  include_characters : Bool
  include_artifacts : Bool
  include_weapons : Bool
  include_materials : Bool
  min_character_level : Nat
  min_character_ascension : Nat
  min_character_constellation : Nat
  min_artifact_level : Nat
  min_artifact_rarity : Nat
  min_weapon_level : Nat
  min_weapon_refinement : Nat
  min_weapon_ascension : Nat
  min_weapon_rarity : Nat
deriving DecidableEq

/-- The aggregator state (`PlayerData`); `character_equip_guid_map` models
the Rust `HashMap<u64, u32>` as a lookup function. -/
structure PlayerData where
  game_data : AnimeGameData
  achievements : List Achievement
  characters : List protos.AvatarInfo
  items : List protos.Item
  character_equip_guid_map : Nat → Option Nat

/-- `PlayerData::new`. -/
def PlayerData.new (game_data : AnimeGameData) : PlayerData :=
  { game_data := game_data, achievements := [], characters := [], items := [],
    character_equip_guid_map := fun _ => none }

/-- `PlayerData::process_achievements`. -/
def PlayerData.process_achievements (pd : PlayerData) (achievements : List Achievement) :
    PlayerData :=
  { pd with achievements := achievements }

/-- `PlayerData::process_characters`: clears the guid map, repopulates it
from every avatar's `equip_guid_list` (insertion order: avatars in batch
order, guids in list order), then replaces the character list. -/
def PlayerData.process_characters (pd : PlayerData) (avatars : List protos.AvatarInfo) :
    PlayerData :=
  { pd with
    character_equip_guid_map :=
      avatars.foldl
        (fun m avatar =>
          avatar.equip_guid_list.foldl
            (fun m guid => assocInsert m guid avatar.avatar_id) m)
        (fun _ => none),
    characters := avatars }

/-- `PlayerData::process_items`. -/
def PlayerData.process_items (pd : PlayerData) (items : List protos.Item) : PlayerData :=
  { pd with items := items }

/-! ## Export engine (`src/player_data.rs`) -/

/-- Rust `val as u32` applied to an `i64`: the low 32 bits, two's
complement. -/
def i64_as_u32 (v : Int) : Nat :=
  ((v % 4294967296 + 4294967296) % 4294967296).toNat

/-- The unchecked `u32` subtraction `level - 1` of
`export_genshin_optimizer_artifacts` (line 193), with release-mode wrap
semantics: on a `u32` value it wraps to `u32::MAX` exactly when the stored
level is `0`. -/
def u32_wrapping_sub_one (level : Nat) : Nat :=
  if level = 0 then 4294967295 else level - 1

/-- One step of the skill-level loop of
`export_genshin_optimizer_characters` (lines 122-131): the accumulator is
`(auto, skill, burst)`. -/
def skill_fold_step (game_data : AnimeGameData) (acc : Nat × Nat × Nat) (e : Nat × Nat) :
    Nat × Nat × Nat :=
  match game_data.get_skill_type e.1 with
  | none => acc
  | some SkillType.auto => (e.2, acc.2.1, acc.2.2)
  | some SkillType.skill => (acc.1, e.2, acc.2.2)
  | some SkillType.burst => (acc.1, acc.2.1, e.2)

/-- The skill-level loop: `auto`, `skill`, `burst` all start at `1` and are
overwritten by each classified entry of `skill_level_map` in turn. -/
def skill_levels (game_data : AnimeGameData) (m : List (Nat × Nat)) : Nat × Nat × Nat :=
  m.foldl (skill_fold_step game_data) (1, 1, 1)

/-- The per-character body of the `filter_map` in
`export_genshin_optimizer_characters` (lines 106-148). -/
def export_character (game_data : AnimeGameData) (settings : ExportSettings)
    (character : protos.AvatarInfo) : Option good.Character :=
  if character.avatar_type ≠ 1 then none else
  match game_data.get_character character.avatar_id with
  | none => none
  | some name =>
    match assocFind character.prop_map 4001, assocFind character.prop_map 1002 with
    | some level_prop, some ascension_prop =>
      let level := i64_as_u32 level_prop
      let ascension := i64_as_u32 ascension_prop
      let constellation := character.talent_id_list.length
      let t := skill_levels game_data character.skill_level_map
      if level < settings.min_character_level ∨
          ascension < settings.min_character_ascension ∨
          constellation < settings.min_character_constellation then none
      else
        some { key := to_good_key name, level := level, constellation := constellation,
               ascension := ascension, talent := ⟨t.1, t.2.1, t.2.2⟩ }
    | _, _ => none

/-- `PlayerData::export_genshin_optimizer_characters`. -/
def PlayerData.export_genshin_optimizer_characters (pd : PlayerData)
    (settings : ExportSettings) : List good.Character :=
  pd.characters.filterMap (export_character pd.game_data settings)

/-- The location computation shared by the artifact and weapon exporters
(guid-map hit, then character lookup, then `to_good_key`; empty string on
any miss). -/
def equip_location (game_data : AnimeGameData)
    (character_equip_guid_map : Nat → Option Nat) (guid : Nat) : String :=
  match character_equip_guid_map guid with
  | some id =>
    match game_data.get_character id with
    | some name => to_good_key name
    | none => ""
  | none => ""

/-- `*substats.entry(property).or_default() += value` on the map modelled
as an association list in first-insertion order. -/
def add_substat : List (Nat × Rat) → Nat → Rat → List (Nat × Rat)
  | [], p, v => [(p, v)]
  | (q, w) :: rest, p, v =>
    if q = p then (q, w + v) :: rest else (q, w) :: add_substat rest p v

/-- One step of the substat loop (lines 179-184): unresolvable affix ids
are skipped, resolved ones accumulate into the property-keyed map. -/
def substat_step (get_affix : Nat → Option Affix) (acc : List (Nat × Rat))
    (substat_id : Nat) : List (Nat × Rat) :=
  match get_affix substat_id with
  | none => acc
  | some substat => add_substat acc substat.property substat.value

/-- The substat map built from `append_prop_id_list`. -/
def compute_substats (get_affix : Nat → Option Affix) (ids : List Nat) :
    List (Nat × Rat) :=
  ids.foldl (substat_step get_affix) []

/-- The per-item body of the `filter_map` in
`export_genshin_optimizer_artifacts` (lines 155-217). -/
def export_artifact (game_data : AnimeGameData)
    (character_equip_guid_map : Nat → Option Nat) (settings : ExportSettings)
    (item : protos.Item) : Option good.Artifact :=
  match item.detail with
  | protos.ItemDetail.equip equip =>
    let location := equip_location game_data character_equip_guid_map item.guid
    match equip.detail with
    | protos.EquipDetail.reliquary artifact =>
      match game_data.get_artifact item.item_id with
      | none => none
      | some artifact_data =>
        let substats :=
          (compute_substats game_data.get_affix artifact.append_prop_id_list).map
            (fun e => good.Substat.mk (game_data.property_good_name e.1) e.2)
        let level := u32_wrapping_sub_one artifact.level
        let rarity := artifact_data.rarity
        match game_data.get_property artifact.main_prop_id with
        | none => none
        | some main_prop =>
          if level < settings.min_artifact_level ∨
              rarity < settings.min_artifact_rarity then none
          else
            some { set_key := to_good_key artifact_data.set,
                   slot_key := artifact_data.slot_good_name,
                   level := level, rarity := rarity,
                   main_stat_key := game_data.property_good_name main_prop,
                   location := location, lock := equip.is_locked,
                   substats := substats }
    | protos.EquipDetail.weapon _ => none
  | _ => none

/-- `PlayerData::export_genshin_optimizer_artifacts`. -/
def PlayerData.export_genshin_optimizer_artifacts (pd : PlayerData)
    (settings : ExportSettings) : List good.Artifact :=
  pd.items.filterMap (export_artifact pd.game_data pd.character_equip_guid_map settings)

/-- `affix_map.values().cloned().next().unwrap_or_default() + 1`
(lines 243-249): the first value in iteration order, or `0` if the map is
empty, plus one. -/
def weapon_refinement (affix_map : List (Nat × Nat)) : Nat :=
  ((affix_map.head?).map Prod.snd).getD 0 + 1

/-- The per-item body of the `filter_map` in
`export_genshin_optimizer_weapons` (lines 221-271). -/
def export_weapon (game_data : AnimeGameData)
    (character_equip_guid_map : Nat → Option Nat) (settings : ExportSettings)
    (item : protos.Item) : Option good.Weapon :=
  match item.detail with
  | protos.ItemDetail.equip equip =>
    let location := equip_location game_data character_equip_guid_map item.guid
    match equip.detail with
    | protos.EquipDetail.weapon weapon =>
      match game_data.get_weapon item.item_id with
      | none => none
      | some weapon_data =>
        let refinement := weapon_refinement weapon.affix_map
        let level := weapon.level
        let ascension := weapon.promote_level
        if level < settings.min_weapon_level ∨
            refinement < settings.min_weapon_refinement ∨
            ascension < settings.min_weapon_ascension ∨
            weapon_data.rarity < settings.min_weapon_rarity then none
        else
          some { key := to_good_key weapon_data.name, level := level,
                 ascension := ascension, refinement := refinement,
                 location := location, lock := equip.is_locked }
    | protos.EquipDetail.reliquary _ => none
  | _ => none

/-- `PlayerData::export_genshin_optimizer_weapons`. -/
def PlayerData.export_genshin_optimizer_weapons (pd : PlayerData)
    (settings : ExportSettings) : List good.Weapon :=
  pd.items.filterMap (export_weapon pd.game_data pd.character_equip_guid_map settings)

/-- The per-item body of the `filter_map` in
`export_genshin_optimizer_materials` (lines 276-285). -/
def material_entry (game_data : AnimeGameData) (item : protos.Item) :
    Option (String × Nat) :=
  match item.detail with
  | protos.ItemDetail.material material =>
    (game_data.get_material item.item_id).map
      (fun name => (to_good_key name, material.count))
  | _ => none

/-- `PlayerData::export_genshin_optimizer_materials`: `collect()` into a
`HashMap`, i.e. insertion of each pair in list order, later keys
overwriting earlier ones. -/
def PlayerData.export_genshin_optimizer_materials (pd : PlayerData) :
    String → Option Nat :=
  (pd.items.filterMap (material_entry pd.game_data)).foldl
    (fun m e => assocInsert m e.1 e.2) (fun _ => none)

/-- `PlayerData::export_genshin_optimizer` (lines 70-100), up to JSON
serialization (which is total on this data and not modelled): the
document with each section present exactly when its include flag is set. -/
def PlayerData.export_genshin_optimizer (pd : PlayerData) (settings : ExportSettings) :
    good.Good :=
  { format := "GOOD", version := 2, source := "Irminsul",
    characters :=
      if settings.include_characters then
        pd.export_genshin_optimizer_characters settings
      else [],
    artifacts :=
      if settings.include_artifacts then
        pd.export_genshin_optimizer_artifacts settings
      else [],
    weapons :=
      if settings.include_weapons then
        pd.export_genshin_optimizer_weapons settings
      else [],
    materials :=
      if settings.include_materials then
        pd.export_genshin_optimizer_materials
      else fun _ => none }

/-! ## Claim C1: map rebuild on `process_characters` -/

/-- The reference→character-id pairs derivable from a character batch, in
the order `process_characters` inserts them. -/
def derived_pairs (avatars : List protos.AvatarInfo) : List (Nat × Nat) :=
  avatars.flatMap
    (fun avatar => avatar.equip_guid_list.map (fun guid => (guid, avatar.avatar_id)))

theorem process_characters_map_as_foldl (avatars : List protos.AvatarInfo) :
    ∀ m : Nat → Option Nat,
      avatars.foldl
          (fun m avatar =>
            avatar.equip_guid_list.foldl
              (fun m guid => assocInsert m guid avatar.avatar_id) m) m
        = (derived_pairs avatars).foldl (fun m e => assocInsert m e.1 e.2) m := by
  induction avatars with
  | nil => intro m; rfl
  | cons avatar rest ih =>
    intro m
    simp only [List.foldl_cons, derived_pairs, List.flatMap_cons, List.foldl_append,
      List.foldl_map]
    exact ih _

theorem foldl_assocInsert_lookup {α β : Type} [DecidableEq α] (pairs : List (α × β)) :
    ∀ (m : α → Option β) (k : α),
      (pairs.foldl (fun m e => assocInsert m e.1 e.2) m) k
        = (pairs.reverse.find? (fun e => decide (e.1 = k))).elim (m k) (fun e => some e.2) := by
  induction pairs with
  | nil => intro m k; rfl
  | cons e rest ih =>
    intro m k
    simp only [List.foldl_cons, List.reverse_cons, List.find?_append]
    rw [ih]
    cases hfind : rest.reverse.find? (fun e => decide (e.1 = k)) with
    | some q => simp [Option.or, hfind]
    | none =>
      simp only [hfind, Option.elim, Option.or]
      by_cases hk : e.1 = k
      · simp [List.find?, hk, assocInsert]
      · have hk' : ¬(k = e.1) := fun h => hk h.symm
        simp [List.find?, hk, assocInsert, hk']

/-- Claim C1: for every prior aggregator state and every batch,
`process_characters` stores exactly the batch as the character list and
rebuilds the guid map so that a lookup yields exactly the character id of
the last derivable pair for that reference id (last writer wins), with no
entry surviving from any earlier batch. -/
theorem process_characters_rebuilds_map (pd : PlayerData)
    (batch : List protos.AvatarInfo) :
    (pd.process_characters batch).characters = batch ∧
      ∀ guid : Nat,
        (pd.process_characters batch).character_equip_guid_map guid
          = ((derived_pairs batch).reverse.find? (fun e => decide (e.1 = guid))).map
              Prod.snd := by
  refine ⟨rfl, fun guid => ?_⟩
  show (batch.foldl
      (fun m avatar =>
        avatar.equip_guid_list.foldl
          (fun m g => assocInsert m g avatar.avatar_id) m)
      (fun _ => none)) guid = _
  rw [process_characters_map_as_foldl, foldl_assocInsert_lookup]
  cases hfind : (derived_pairs batch).reverse.find? (fun e => decide (e.1 = guid)) <;>
    simp [hfind]

/-! ## Claim C10: materials last-writer-wins -/

/-- Claim C10: a materials lookup returns the count carried by the last
material item (in stored list order) whose canonical name matched the key;
duplicate names overwrite, they are never summed. -/
theorem export_materials_last_writer_wins (pd : PlayerData) (key : String) :
    pd.export_genshin_optimizer_materials key
      = ((pd.items.filterMap (material_entry pd.game_data)).reverse.find?
          (fun e => decide (e.1 = key))).map Prod.snd := by
  show ((pd.items.filterMap (material_entry pd.game_data)).foldl
      (fun m e => assocInsert m e.1 e.2) (fun _ => none)) key = _
  rw [foldl_assocInsert_lookup]
  cases hfind : (pd.items.filterMap (material_entry pd.game_data)).reverse.find?
      (fun e => decide (e.1 = key)) <;> simp [hfind]

/-! ## Claim C8: export of a fresh aggregator -/

/-- Claim C8: with all four include flags set, exporting a freshly
constructed aggregator yields the fixed format tag, version 2, the fixed
source tag, empty character/artifact/weapon lists and an empty materials
mapping. -/
theorem export_fresh_aggregator_empty (game_data : AnimeGameData)
    (settings : ExportSettings)
    (h1 : settings.include_characters = true) (h2 : settings.include_artifacts = true)
    (h3 : settings.include_weapons = true) (h4 : settings.include_materials = true) :
    (PlayerData.new game_data).export_genshin_optimizer settings
      = { format := "GOOD", version := 2, source := "Irminsul",
          characters := [], artifacts := [], weapons := [],
          materials := fun _ => none } := by
  simp [PlayerData.export_genshin_optimizer, h1, h2, h3, h4, PlayerData.new,
    PlayerData.export_genshin_optimizer_characters,
    PlayerData.export_genshin_optimizer_artifacts,
    PlayerData.export_genshin_optimizer_weapons,
    PlayerData.export_genshin_optimizer_materials]

/-- Settings with every include flag set and every threshold zero. -/
def all_on_settings : ExportSettings :=
  ⟨true, true, true, true, 0, 0, 0, 0, 0, 0, 0, 0, 0⟩

/-- A game database all of whose lookups miss. -/
def empty_game_data : AnimeGameData :=
  { get_character := fun _ => none, get_skill_type := fun _ => none,
    get_artifact := fun _ => none, get_affix := fun _ => none,
    get_property := fun _ => none, get_weapon := fun _ => none,
    get_material := fun _ => none, property_good_name := fun _ => ("") }

theorem export_fresh_aggregator_empty_witness :
    (PlayerData.new empty_game_data).export_genshin_optimizer all_on_settings
      = { format := "GOOD", version := 2, source := "Irminsul",
          characters := [], artifacts := [], weapons := [],
          materials := fun _ => none } :=
  export_fresh_aggregator_empty empty_game_data all_on_settings rfl rfl rfl rfl

/-! ## Claim C5: weapon refinement -/

theorem export_weapon_some {game_data : AnimeGameData} {m : Nat → Option Nat}
    {settings : ExportSettings} {item : protos.Item} {w : good.Weapon}
    (h : export_weapon game_data m settings item = some w) :
    ∃ equip weapon weapon_data,
      item.detail = protos.ItemDetail.equip equip ∧
      equip.detail = protos.EquipDetail.weapon weapon ∧
      game_data.get_weapon item.item_id = some weapon_data ∧
      w = { key := to_good_key weapon_data.name, level := weapon.level,
            ascension := weapon.promote_level,
            refinement := weapon_refinement weapon.affix_map,
            location := equip_location game_data m item.guid,
            lock := equip.is_locked } := by
  unfold export_weapon at h
  split at h
  case _ equip heq =>
    split at h
    case _ weapon heq2 =>
      split at h
      case _ => exact absurd h (by simp)
      case _ weapon_data heq3 =>
        dsimp only at h
        split at h
        case _ => exact absurd h (by simp)
        case _ =>
          refine ⟨equip, weapon, weapon_data, heq, heq2, heq3, ?_⟩
          injection h with h
          exact h.symm
    case _ r heq2 => exact absurd h (by simp)
  case _ => exact absurd h (by simp)

/-- Claim C5: every exported weapon's refinement is the code's
`weapon_refinement` of its source weapon's affix map: `1` when the map is
empty, and otherwise `1` plus the value of one of the map's entries (the
head in iteration order); for a one-entry map it is that entry's value
plus `1`. -/
theorem exported_weapon_refinement (game_data : AnimeGameData) (m : Nat → Option Nat)
    (settings : ExportSettings) (item : protos.Item) (w : good.Weapon)
    (h : export_weapon game_data m settings item = some w) :
    ∃ equip weapon,
      item.detail = protos.ItemDetail.equip equip ∧
      equip.detail = protos.EquipDetail.weapon weapon ∧
      w.refinement = weapon_refinement weapon.affix_map ∧
      (weapon.affix_map = [] → w.refinement = 1) ∧
      (∀ k v, weapon.affix_map = [(k, v)] → w.refinement = v + 1) ∧
      (weapon.affix_map ≠ [] → ∃ e ∈ weapon.affix_map, w.refinement = e.2 + 1) := by
  obtain ⟨equip, weapon, weapon_data, h1, h2, h3, hw⟩ := export_weapon_some h
  subst hw
  refine ⟨equip, weapon, h1, h2, rfl, ?_, ?_, ?_⟩
  · intro he; simp [weapon_refinement, he]
  · intro k v he; simp [weapon_refinement, he]
  · intro hne
    cases haff : weapon.affix_map with
    | nil => exact absurd haff hne
    | cons e rest =>
      exact ⟨e, by simp [haff], by simp [weapon_refinement, haff]⟩

/-- A game database resolving only weapon id `100`. -/
def c5_game_data : AnimeGameData :=
  { empty_game_data with
    get_weapon := fun i => if i = 100 then some ⟨("Sword"), 5⟩ else none }

/-- A weapon item whose affix map has exactly one entry, with value `2`. -/
def c5_item : protos.Item :=
  ⟨100, 1, protos.ItemDetail.equip ⟨false, protos.EquipDetail.weapon ⟨90, 6, [(1, 2)]⟩⟩⟩

/-- The weapon record `c5_item` exports to: refinement `2 + 1 = 3`. -/
def c5_weapon : good.Weapon :=
  ⟨("Sword"), 90, 6, 3, (""), false⟩

theorem exported_weapon_refinement_witness :
    ∃ equip weapon,
      c5_item.detail = protos.ItemDetail.equip equip ∧
      equip.detail = protos.EquipDetail.weapon weapon ∧
      c5_weapon.refinement = weapon_refinement weapon.affix_map ∧
      (weapon.affix_map = [] → c5_weapon.refinement = 1) ∧
      (∀ k v, weapon.affix_map = [(k, v)] → c5_weapon.refinement = v + 1) ∧
      (weapon.affix_map ≠ [] → ∃ e ∈ weapon.affix_map, c5_weapon.refinement = e.2 + 1) :=
  exported_weapon_refinement c5_game_data (fun _ => none) all_on_settings c5_item
    c5_weapon (by decide)

/-! ## Claim C2: substat merging -/

/-- Total value recorded for property `p` in a property/value list. -/
def substat_value (p : Nat) (l : List (Nat × Rat)) : Rat :=
  ((l.filter (fun e => decide (e.1 = p))).map Prod.snd).sum

/-- The (property, magnitude) pairs the affix lookup resolves, in substat
id order, duplicates kept. -/
def resolved_substats (get_affix : Nat → Option Affix) (ids : List Nat) :
    List (Nat × Rat) :=
  ids.filterMap (fun i => (get_affix i).map (fun a => (a.property, a.value)))

theorem substat_value_cons (q : Nat) (e : Nat × Rat) (rest : List (Nat × Rat)) :
    substat_value q (e :: rest) = (if e.1 = q then e.2 else 0) + substat_value q rest := by
  by_cases h : e.1 = q <;> simp [substat_value, h]

theorem substat_value_add_substat (p q : Nat) (v : Rat) :
    ∀ acc, substat_value q (add_substat acc p v)
      = substat_value q acc + (if p = q then v else 0) := by
  intro acc
  induction acc with
  | nil =>
    by_cases h : p = q <;> simp [add_substat, substat_value, h]
  | cons e rest ih =>
    rcases e with ⟨ek, ev⟩
    by_cases hek : ek = p
    · subst hek
      have hstep : add_substat ((ek, ev) :: rest) ek v = (ek, ev + v) :: rest := by
        simp [add_substat]
      rw [hstep, substat_value_cons, substat_value_cons]
      by_cases hq : ek = q
      · simp [hq]; ring
      · simp [hq]
    · simp only [add_substat, if_neg hek]
      rw [substat_value_cons, substat_value_cons, ih]
      ring

theorem substat_value_compute_aux (get_affix : Nat → Option Affix) (q : Nat) :
    ∀ (ids : List Nat) (acc : List (Nat × Rat)),
      substat_value q (ids.foldl (substat_step get_affix) acc)
        = substat_value q acc + substat_value q (resolved_substats get_affix ids) := by
  intro ids
  induction ids with
  | nil => intro acc; simp [resolved_substats, substat_value]
  | cons i ids ih =>
    intro acc
    simp only [List.foldl_cons]
    rw [ih]
    cases hget : get_affix i with
    | none =>
      simp [substat_step, hget, resolved_substats]
    | some affix =>
      simp only [substat_step, hget]
      rw [substat_value_add_substat]
      have hres : resolved_substats get_affix (i :: ids)
          = (affix.property, affix.value) :: resolved_substats get_affix ids := by
        simp [resolved_substats, hget]
      rw [hres, substat_value_cons]
      ring

/-- The value the merged substat map records for a property is the plain
sum of the magnitudes of all substat ids resolving to that property. -/
theorem substat_value_compute (get_affix : Nat → Option Affix) (ids : List Nat)
    (q : Nat) :
    substat_value q (compute_substats get_affix ids)
      = substat_value q (resolved_substats get_affix ids) := by
  have h := substat_value_compute_aux get_affix q ids []
  simpa [compute_substats, substat_value] using h

theorem add_substat_keys (p : Nat) (v : Rat) :
    ∀ acc : List (Nat × Rat),
      (add_substat acc p v).map Prod.fst
        = if p ∈ acc.map Prod.fst then acc.map Prod.fst
          else acc.map Prod.fst ++ [p] := by
  intro acc
  induction acc with
  | nil => simp [add_substat]
  | cons e rest ih =>
    rcases e with ⟨ek, ev⟩
    by_cases hek : ek = p
    · subst hek; simp [add_substat]
    · simp only [add_substat, if_neg hek, List.map_cons, ih]
      by_cases hmem : p ∈ rest.map Prod.fst
      · simp [hmem, Ne.symm hek]
      · simp [hmem, Ne.symm hek]

/-- The merged substat map never holds two entries for the same property. -/
theorem compute_substats_keys_nodup (get_affix : Nat → Option Affix) (ids : List Nat) :
    ((compute_substats get_affix ids).map Prod.fst).Nodup := by
  suffices hgen : ∀ (l : List Nat) (acc : List (Nat × Rat)), (acc.map Prod.fst).Nodup →
      ((l.foldl (substat_step get_affix) acc).map Prod.fst).Nodup from
    hgen ids [] (by simp)
  intro l
  induction l with
  | nil => intro acc h; simpa using h
  | cons i l ih =>
    intro acc h
    simp only [List.foldl_cons]
    apply ih
    cases hget : get_affix i with
    | none => simpa [substat_step, hget] using h
    | some affix =>
      simp only [substat_step, hget]
      rw [add_substat_keys]
      split
      · exact h
      · next hmem =>
        refine List.Nodup.append h (List.nodup_singleton _) ?_
        simp [List.disjoint_singleton, hmem]

theorem export_artifact_some {game_data : AnimeGameData} {m : Nat → Option Nat}
    {settings : ExportSettings} {item : protos.Item} {a : good.Artifact}
    (h : export_artifact game_data m settings item = some a) :
    ∃ equip artifact artifact_data main_prop,
      item.detail = protos.ItemDetail.equip equip ∧
      equip.detail = protos.EquipDetail.reliquary artifact ∧
      game_data.get_artifact item.item_id = some artifact_data ∧
      game_data.get_property artifact.main_prop_id = some main_prop ∧
      a = { set_key := to_good_key artifact_data.set,
            slot_key := artifact_data.slot_good_name,
            level := u32_wrapping_sub_one artifact.level,
            rarity := artifact_data.rarity,
            main_stat_key := game_data.property_good_name main_prop,
            location := equip_location game_data m item.guid,
            lock := equip.is_locked,
            substats :=
              (compute_substats game_data.get_affix artifact.append_prop_id_list).map
                (fun e => good.Substat.mk (game_data.property_good_name e.1) e.2) } := by
  unfold export_artifact at h
  split at h
  case _ equip heq =>
    split at h
    case _ artifact heq2 =>
      split at h
      case _ => exact absurd h (by simp)
      case _ artifact_data heq3 =>
        dsimp only at h
        split at h
        case _ => exact absurd h (by simp)
        case _ main_prop heq4 =>
          split at h
          case _ => exact absurd h (by simp)
          case _ =>
            refine ⟨equip, artifact, artifact_data, main_prop, heq, heq2, heq3, heq4, ?_⟩
            injection h with h
            exact h.symm
    case _ w heq2 => exact absurd h (by simp)
  case _ => exact absurd h (by simp)

/-- Claim C2: every exported artifact's substat list is the image of the
property-keyed merged map, which holds at most one entry per property, and
whose value for each property is the sum of the magnitudes of all substat
ids resolving to that property. -/
theorem exported_artifact_substats_merged (game_data : AnimeGameData)
    (m : Nat → Option Nat) (settings : ExportSettings) (item : protos.Item)
    (a : good.Artifact) (h : export_artifact game_data m settings item = some a) :
    ∃ equip artifact,
      item.detail = protos.ItemDetail.equip equip ∧
      equip.detail = protos.EquipDetail.reliquary artifact ∧
      a.substats =
        (compute_substats game_data.get_affix artifact.append_prop_id_list).map
          (fun e => good.Substat.mk (game_data.property_good_name e.1) e.2) ∧
      ((compute_substats game_data.get_affix artifact.append_prop_id_list).map
        Prod.fst).Nodup ∧
      ∀ p : Nat,
        substat_value p (compute_substats game_data.get_affix artifact.append_prop_id_list)
          = substat_value p (resolved_substats game_data.get_affix
              artifact.append_prop_id_list) := by
  obtain ⟨equip, artifact, artifact_data, main_prop, h1, h2, h3, h4, ha⟩ :=
    export_artifact_some h
  subst ha
  exact ⟨equip, artifact, h1, h2, rfl, compute_substats_keys_nodup _ _,
    fun p => substat_value_compute _ _ p⟩

/-- A game database for the substat-merge witness: artifact id `300`
resolves, substat ids `11` and `12` both resolve to property `5` with
magnitudes `3` and `4`. -/
def c2_game_data : AnimeGameData :=
  { empty_game_data with
    get_artifact := fun i =>
      if i = 300 then some ⟨5, ("GladiatorsFinale"), ("plume")⟩ else none,
    get_property := fun p => if p = 1 then some 1 else none,
    get_affix := fun i =>
      if i = 11 then some ⟨5, 3⟩ else if i = 12 then some ⟨5, 4⟩ else none,
    property_good_name := fun p => if p = 5 then ("atk") else ("") }

/-- A reliquary with the two substat ids `11` and `12`. -/
def c2_item : protos.Item :=
  ⟨300, 3, protos.ItemDetail.equip ⟨false, protos.EquipDetail.reliquary ⟨9, 1, [11, 12]⟩⟩⟩

/-- The artifact `c2_item` exports to: a single merged substat of value
`3 + 4 = 7`. -/
def c2_artifact : good.Artifact :=
  ⟨("GladiatorsFinale"), ("plume"), 8, 5, (""), (""), false, [⟨("atk"), 7⟩]⟩

theorem c2_export_eq :
    export_artifact c2_game_data (fun _ => none) all_on_settings c2_item
      = some c2_artifact := by
  have h7 : (3 : Rat) + 4 = 7 := by norm_num
  have hstep : export_artifact c2_game_data (fun _ => none) all_on_settings c2_item
      = some { set_key := ("GladiatorsFinale"), slot_key := ("plume"), level := 8,
               rarity := 5, main_stat_key := (""), location := (""), lock := false,
               substats := [⟨("atk"), 3 + 4⟩] } := rfl
  rw [hstep, h7]
  rfl

theorem exported_artifact_substats_merged_witness :
    ∃ equip artifact,
      c2_item.detail = protos.ItemDetail.equip equip ∧
      equip.detail = protos.EquipDetail.reliquary artifact ∧
      c2_artifact.substats =
        (compute_substats c2_game_data.get_affix artifact.append_prop_id_list).map
          (fun e => good.Substat.mk (c2_game_data.property_good_name e.1) e.2) ∧
      ((compute_substats c2_game_data.get_affix artifact.append_prop_id_list).map
        Prod.fst).Nodup ∧
      ∀ p : Nat,
        substat_value p (compute_substats c2_game_data.get_affix
            artifact.append_prop_id_list)
          = substat_value p (resolved_substats c2_game_data.get_affix
              artifact.append_prop_id_list) :=
  exported_artifact_substats_merged c2_game_data (fun _ => none) all_on_settings
    c2_item c2_artifact c2_export_eq

/-! ## Claim C6: artifact level offset -/

/-- Claim C6 (amended): every exported reliquary's level is the `u32` wrap
of the stored level minus one; whenever the stored level is at least `1`
this equals stored level − 1, in particular stored level `5` exports `4`. -/
theorem exported_artifact_level_offset (game_data : AnimeGameData)
    (m : Nat → Option Nat) (settings : ExportSettings) (item : protos.Item)
    (a : good.Artifact) (h : export_artifact game_data m settings item = some a) :
    ∃ equip artifact,
      item.detail = protos.ItemDetail.equip equip ∧
      equip.detail = protos.EquipDetail.reliquary artifact ∧
      a.level = u32_wrapping_sub_one artifact.level ∧
      (1 ≤ artifact.level → a.level = artifact.level - 1) ∧
      (artifact.level = 5 → a.level = 4) := by
  obtain ⟨equip, artifact, artifact_data, main_prop, h1, h2, h3, h4, ha⟩ :=
    export_artifact_some h
  subst ha
  refine ⟨equip, artifact, h1, h2, rfl, ?_, ?_⟩
  · intro hlv
    show u32_wrapping_sub_one artifact.level = artifact.level - 1
    unfold u32_wrapping_sub_one
    rw [if_neg (by omega)]
  · intro h5
    show u32_wrapping_sub_one artifact.level = 4
    rw [h5]
    decide

/-- A game database for the level-offset claims: artifact id `200` and
main-stat property id `1` resolve. -/
def c6_game_data : AnimeGameData :=
  { empty_game_data with
    get_artifact := fun i =>
      if i = 200 then some ⟨5, ("WanderersTroupe"), ("flower")⟩ else none,
    get_property := fun p => if p = 1 then some 1 else none,
    property_good_name := fun _ => ("hp") }

/-- A reliquary with stored level `0`. -/
def c6_zero_item : protos.Item :=
  ⟨200, 2, protos.ItemDetail.equip ⟨true, protos.EquipDetail.reliquary ⟨0, 1, []⟩⟩⟩

/-- Claim C6, counterexample: a reliquary with stored level `0` is still
exported (the wrapped level `4294967295` passes every inclusive minimum
filter), and its exported level is not the stored level minus one. -/
theorem exported_artifact_level_zero_counterexample :
    (export_artifact c6_game_data (fun _ => none) all_on_settings c6_zero_item).map
        (fun a => a.level) = some 4294967295 ∧
      ((4294967295 : Int) ≠ (0 : Int) - 1) := by
  exact ⟨by decide, by decide⟩

/-- A reliquary with stored level `5`. -/
def c6_item : protos.Item :=
  ⟨200, 2, protos.ItemDetail.equip ⟨true, protos.EquipDetail.reliquary ⟨5, 1, []⟩⟩⟩

/-- The artifact `c6_item` exports to: level `4`. -/
def c6_artifact : good.Artifact :=
  ⟨("WanderersTroupe"), ("flower"), 4, 5, ("hp"), (""), true, []⟩

theorem exported_artifact_level_offset_witness :
    ∃ equip artifact,
      c6_item.detail = protos.ItemDetail.equip equip ∧
      equip.detail = protos.EquipDetail.reliquary artifact ∧
      c6_artifact.level = u32_wrapping_sub_one artifact.level ∧
      (1 ≤ artifact.level → c6_artifact.level = artifact.level - 1) ∧
      (artifact.level = 5 → c6_artifact.level = 4) :=
  exported_artifact_level_offset c6_game_data (fun _ => none) all_on_settings
    c6_item c6_artifact (by decide)

/-! ## Claim C9: the unchecked `level - 1` subtraction -/

/-- The stored level of a reliquary item at the moment it reaches the
`level - 1` subtraction: `some` exactly when the item passes the guards
that precede the subtraction (`has_equip`, `has_reliquary`, artifact
metadata lookup succeeds); the threshold filters and the main-stat lookup
run only after the subtraction. -/
def considered_reliquary_level (game_data : AnimeGameData) (item : protos.Item) :
    Option Nat :=
  match item.detail with
  | protos.ItemDetail.equip equip =>
    match equip.detail with
    | protos.EquipDetail.reliquary artifact =>
      match game_data.get_artifact item.item_id with
      | some _ => some artifact.level
      | none => none
    | _ => none
  | _ => none

/-- `true` iff the artifact exporter reaches the `level - 1` subtraction on
this item with a stored level of `0`, i.e. iff the `u32` subtraction
underflows (wraps in release builds, panics in debug builds). -/
def artifact_sub_underflows (game_data : AnimeGameData) (item : protos.Item) : Bool :=
  decide (considered_reliquary_level game_data item = some 0)

/-- A game database for the underflow claims: artifact id `200` resolves,
the main-stat property lookup always misses. -/
def c9_game_data : AnimeGameData :=
  { empty_game_data with
    get_artifact := fun i =>
      if i = 200 then some ⟨5, ("WanderersTroupe"), ("flower")⟩ else none }

/-- The aggregator state of the C9 counterexample: one stored reliquary of
level `0` whose main-stat property lookup misses, so it is never retained
for export. -/
def c9_player_data : PlayerData :=
  { game_data := c9_game_data, achievements := [], characters := [],
    items := [c6_zero_item], character_equip_guid_map := fun _ => none }

/-- Claim C9, counterexample: the precondition as stated (about the items
retained for export) holds vacuously — the artifact export is empty — yet
the subtraction underflows on a stored level-`0` reliquary, because the
subtraction runs before the filters and the main-stat lookup. -/
theorem artifact_underflow_despite_empty_export :
    c9_player_data.export_genshin_optimizer_artifacts all_on_settings = [] ∧
      c9_player_data.items.any
        (artifact_sub_underflows c9_player_data.game_data) = true := by
  exact ⟨by decide, by decide⟩

/-- Claim C9 (amended): if every stored item that reaches the subtraction —
every equip item carrying reliquary data whose artifact-metadata lookup
succeeds — has stored level at least `1`, the subtraction never underflows;
the precondition is necessary: a stored level-`0` reliquary reaches the
subtraction and underflows it. -/
theorem artifact_level_subtraction_guarded :
    (∀ (game_data : AnimeGameData) (items : List protos.Item),
        (∀ item ∈ items, ∀ lv,
          considered_reliquary_level game_data item = some lv → 1 ≤ lv) →
        ∀ item ∈ items, artifact_sub_underflows game_data item = false) ∧
      (artifact_sub_underflows c9_game_data c6_zero_item = true ∧
        considered_reliquary_level c9_game_data c6_zero_item = some 0) := by
  refine ⟨?_, by decide, by decide⟩
  intro game_data items hlevels item hmem
  simp only [artifact_sub_underflows, decide_eq_false_iff_not]
  intro hzero
  exact absurd (hlevels item hmem 0 hzero) (by omega)

/-- A level-`5` reliquary item resolving in `c9_game_data`. -/
def c9_safe_item : protos.Item :=
  ⟨200, 7, protos.ItemDetail.equip ⟨false, protos.EquipDetail.reliquary ⟨5, 1, []⟩⟩⟩

theorem artifact_level_subtraction_guarded_witness :
    artifact_sub_underflows c9_game_data c9_safe_item = false :=
  artifact_level_subtraction_guarded.1 c9_game_data [c9_safe_item]
    (by
      intro item hmem lv hlv
      simp only [List.mem_singleton] at hmem
      subst hmem
      have : considered_reliquary_level c9_game_data c9_safe_item = some 5 := by decide
      rw [this] at hlv
      injection hlv with hlv
      omega)
    c9_safe_item (by decide)

/-! ## Claim C7: talent levels -/

/-- `true` iff the game database classifies the skill entry's id as a
skill of type `t`. -/
def is_skill_of_type (game_data : AnimeGameData) (t : SkillType) (e : Nat × Nat) : Bool :=
  decide (game_data.get_skill_type e.1 = some t)

theorem skill_fold_step_components (game_data : AnimeGameData) (acc : Nat × Nat × Nat)
    (e : Nat × Nat) :
    (skill_fold_step game_data acc e).1
        = (if is_skill_of_type game_data SkillType.auto e then e.2 else acc.1) ∧
      (skill_fold_step game_data acc e).2.1
        = (if is_skill_of_type game_data SkillType.skill e then e.2 else acc.2.1) ∧
      (skill_fold_step game_data acc e).2.2
        = (if is_skill_of_type game_data SkillType.burst e then e.2 else acc.2.2) := by
  unfold skill_fold_step is_skill_of_type
  cases hget : game_data.get_skill_type e.1 with
  | none => simp [hget]
  | some t => cases t <;> simp [hget]

theorem foldl_skill_last (game_data : AnimeGameData) (m : List (Nat × Nat)) :
    ∀ acc : Nat × Nat × Nat,
      (m.foldl (skill_fold_step game_data) acc).1
          = ((m.reverse.find? (is_skill_of_type game_data SkillType.auto)).map
              Prod.snd).getD acc.1
        ∧ (m.foldl (skill_fold_step game_data) acc).2.1
          = ((m.reverse.find? (is_skill_of_type game_data SkillType.skill)).map
              Prod.snd).getD acc.2.1
        ∧ (m.foldl (skill_fold_step game_data) acc).2.2
          = ((m.reverse.find? (is_skill_of_type game_data SkillType.burst)).map
              Prod.snd).getD acc.2.2 := by
  induction m with
  | nil => intro acc; exact ⟨rfl, rfl, rfl⟩
  | cons e rest ih =>
    intro acc
    simp only [List.foldl_cons, List.reverse_cons, List.find?_append]
    obtain ⟨ih1, ih2, ih3⟩ := ih (skill_fold_step game_data acc e)
    obtain ⟨hs1, hs2, hs3⟩ := skill_fold_step_components game_data acc e
    refine ⟨?_, ?_, ?_⟩
    · rw [ih1, hs1]
      cases hfind : rest.reverse.find? (is_skill_of_type game_data SkillType.auto) with
      | some q => simp [Option.or]
      | none =>
        cases hP : is_skill_of_type game_data SkillType.auto e <;>
          simp [Option.or, List.find?, hP]
    · rw [ih2, hs2]
      cases hfind : rest.reverse.find? (is_skill_of_type game_data SkillType.skill) with
      | some q => simp [Option.or]
      | none =>
        cases hP : is_skill_of_type game_data SkillType.skill e <;>
          simp [Option.or, List.find?, hP]
    · rw [ih3, hs3]
      cases hfind : rest.reverse.find? (is_skill_of_type game_data SkillType.burst) with
      | some q => simp [Option.or]
      | none =>
        cases hP : is_skill_of_type game_data SkillType.burst e <;>
          simp [Option.or, List.find?, hP]

theorem talent_component_spec (game_data : AnimeGameData) (m : List (Nat × Nat))
    (t : SkillType) (x : Nat)
    (hx : x = ((m.reverse.find? (is_skill_of_type game_data t)).map Prod.snd).getD 1) :
    ((∃ e ∈ m, is_skill_of_type game_data t e = true ∧ x = e.2)
        ∨ (x = 1 ∧ ∀ e ∈ m, is_skill_of_type game_data t e = false)) ∧
      ((∀ e ∈ m, 1 ≤ e.2) → 1 ≤ x) := by
  cases hfind : m.reverse.find? (is_skill_of_type game_data t) with
  | some q =>
    have hq_mem : q ∈ m := List.mem_reverse.mp (List.mem_of_find?_eq_some hfind)
    have hq_p := List.find?_some hfind
    rw [hfind] at hx
    simp only [Option.map_some', Option.getD_some] at hx
    constructor
    · exact Or.inl ⟨q, hq_mem, hq_p, hx⟩
    · intro hall
      rw [hx]
      exact hall q hq_mem
  | none =>
    rw [hfind] at hx
    simp only [Option.map_none', Option.getD_none] at hx
    have hnone := List.find?_eq_none.mp hfind
    constructor
    · refine Or.inr ⟨hx, fun e he => ?_⟩
      have := hnone e (List.mem_reverse.mpr he)
      simpa using this
    · intro _
      omega

theorem export_character_some {game_data : AnimeGameData} {settings : ExportSettings}
    {character : protos.AvatarInfo} {c : good.Character}
    (h : export_character game_data settings character = some c) :
    ∃ name level_prop ascension_prop,
      character.avatar_type = 1 ∧
      game_data.get_character character.avatar_id = some name ∧
      assocFind character.prop_map 4001 = some level_prop ∧
      assocFind character.prop_map 1002 = some ascension_prop ∧
      c = { key := to_good_key name, level := i64_as_u32 level_prop,
            constellation := character.talent_id_list.length,
            ascension := i64_as_u32 ascension_prop,
            talent := ⟨(skill_levels game_data character.skill_level_map).1,
                       (skill_levels game_data character.skill_level_map).2.1,
                       (skill_levels game_data character.skill_level_map).2.2⟩ } := by
  unfold export_character at h
  split at h
  case _ => exact absurd h (by simp)
  case _ htype =>
    split at h
    case _ => exact absurd h (by simp)
    case _ name hname =>
      split at h
      case _ level_prop ascension_prop hlp hap =>
        dsimp only at h
        split at h
        case _ => exact absurd h (by simp)
        case _ =>
          refine ⟨name, level_prop, ascension_prop, by omega, hname, hlp, hap, ?_⟩
          injection h with h
          exact h.symm
      case _ hboth => exact absurd h (by simp)

/-- Claim C7 (amended): each exported talent level is either the level of
some skill of its type found in the skill-level mapping (the last such in
iteration order wins) or the default `1` when no entry of that type
resolves; talent levels are at least `1` provided every level stored in
the skill-level mapping is at least `1` (the code copies a stored level of
`0` verbatim, so "never 0" does not hold unconditionally). -/
theorem exported_character_talents (game_data : AnimeGameData)
    (settings : ExportSettings) (character : protos.AvatarInfo) (c : good.Character)
    (h : export_character game_data settings character = some c) :
    ((∃ e ∈ character.skill_level_map,
        is_skill_of_type game_data SkillType.auto e = true ∧ c.talent.auto = e.2)
      ∨ (c.talent.auto = 1 ∧ ∀ e ∈ character.skill_level_map,
          is_skill_of_type game_data SkillType.auto e = false)) ∧
    ((∃ e ∈ character.skill_level_map,
        is_skill_of_type game_data SkillType.skill e = true ∧ c.talent.skill = e.2)
      ∨ (c.talent.skill = 1 ∧ ∀ e ∈ character.skill_level_map,
          is_skill_of_type game_data SkillType.skill e = false)) ∧
    ((∃ e ∈ character.skill_level_map,
        is_skill_of_type game_data SkillType.burst e = true ∧ c.talent.burst = e.2)
      ∨ (c.talent.burst = 1 ∧ ∀ e ∈ character.skill_level_map,
          is_skill_of_type game_data SkillType.burst e = false)) ∧
    ((∀ e ∈ character.skill_level_map, 1 ≤ e.2) →
      1 ≤ c.talent.auto ∧ 1 ≤ c.talent.skill ∧ 1 ≤ c.talent.burst) := by
  obtain ⟨name, level_prop, ascension_prop, htype, hname, hlp, hap, hc⟩ :=
    export_character_some h
  subst hc
  obtain ⟨h1, h2, h3⟩ := foldl_skill_last game_data character.skill_level_map (1, 1, 1)
  have ha := talent_component_spec game_data character.skill_level_map SkillType.auto _ h1
  have hs := talent_component_spec game_data character.skill_level_map SkillType.skill _ h2
  have hb := talent_component_spec game_data character.skill_level_map SkillType.burst _ h3
  exact ⟨ha.1, hs.1, hb.1, fun hall => ⟨ha.2 hall, hs.2 hall, hb.2 hall⟩⟩

/-- A game database for the talent claims: character id `10` and an
auto-attack skill id `7` resolve. -/
def c7_game_data : AnimeGameData :=
  { empty_game_data with
    get_character := fun i => if i = 10 then some ("X") else none,
    get_skill_type := fun i => if i = 7 then some SkillType.auto else none }

/-- A playable character whose skill-level mapping stores level `0` for its
auto-attack skill. -/
def c7_character : protos.AvatarInfo :=
  ⟨1, 10, [(4001, 50), (1002, 3)], [(7, 0)], [], []⟩

/-- Claim C7, counterexample: the character above is exported with
basic-attack talent level `0` — exported talent levels can be `0`. -/
theorem exported_character_zero_talent :
    (export_character c7_game_data all_on_settings c7_character).map
      (fun c => c.talent.auto) = some 0 := by
  decide

/-- The character record `c7_character` exports to. -/
def c7_exported : good.Character :=
  ⟨("X"), 50, 0, 3, ⟨0, 1, 1⟩⟩

theorem exported_character_talents_witness :
    ((∃ e ∈ c7_character.skill_level_map,
        is_skill_of_type c7_game_data SkillType.auto e = true ∧
          c7_exported.talent.auto = e.2)
      ∨ (c7_exported.talent.auto = 1 ∧ ∀ e ∈ c7_character.skill_level_map,
          is_skill_of_type c7_game_data SkillType.auto e = false)) ∧
    ((∃ e ∈ c7_character.skill_level_map,
        is_skill_of_type c7_game_data SkillType.skill e = true ∧
          c7_exported.talent.skill = e.2)
      ∨ (c7_exported.talent.skill = 1 ∧ ∀ e ∈ c7_character.skill_level_map,
          is_skill_of_type c7_game_data SkillType.skill e = false)) ∧
    ((∃ e ∈ c7_character.skill_level_map,
        is_skill_of_type c7_game_data SkillType.burst e = true ∧
          c7_exported.talent.burst = e.2)
      ∨ (c7_exported.talent.burst = 1 ∧ ∀ e ∈ c7_character.skill_level_map,
          is_skill_of_type c7_game_data SkillType.burst e = false)) ∧
    ((∀ e ∈ c7_character.skill_level_map, 1 ≤ e.2) →
      1 ≤ c7_exported.talent.auto ∧ 1 ≤ c7_exported.talent.skill ∧
        1 ≤ c7_exported.talent.burst) :=
  exported_character_talents c7_game_data all_on_settings c7_character c7_exported
    (by decide)
